import Mathlib

/-
Verification of the OptiFarm image-generation orchestration core.

This file shallowly embeds the two core modules of the repository,
`src/config_manager.py` (class ConfigManager and the entity dataclasses)
and `src/generator.py` (class OptimistFarmGenerator and dataclass
GenerationResult), as executable Lean definitions, and proves the frozen
claims about them.

Modelling conventions:
  * JSON configuration data is the inductive `JValue`; JSON numbers are
    rationals (`Rat`), which covers both the integer page numbers and the
    fractional per-image cost used by the code.  Python dicts are
    insertion-ordered association lists `List (String, JValue)`.
  * Remote I/O (fal_client.upload, fal_client.subscribe plus the
    result["images"][0]["url"] extraction, and requests.get plus the file
    write of _save_image) is abstracted into oracles in `GenEnv`; an
    oracle's `Except.error e` case stands for a Python exception with
    message `str(e) = e`.  The guidance/step/format parameters that
    _call_api forwards unchanged from the configuration are folded into
    the synthesis oracle.  `GenEnv.now` stands for the datetime-derived
    timestamp fragments used in default file names.
  * Wall-clock durations are not modelled: every result carries
    generation_time 0.
  * Python str.format templates are parsed into literal/placeholder token
    lists by `parseFmt`; the try path of build_prompt (full format, with
    a missing placeholder raising KeyError) is modelled by `formatAll` on
    those tokens, and the except-KeyError path is modelled exactly as the
    source writes it: a sequential whole-string find/replace of each
    supplied marker over the raw template text (`fallbackReplace`, built
    on the str.replace model `pyRepAux`), which rescans text substituted
    by earlier keys.  `formatAll` is a faithful model of str.format on
    templates made of brace-free literal text and simple named
    placeholders (`tokensWF`/`validName`); templates outside that domain
    (stray braces, positional or dotted/spec fields) make str.format
    raise ValueError/IndexError uncaught and are outside the modelled
    domain, which the theorems restrict to explicitly.
  * mkdir/print side effects are not modelled.  Entries of the raw
    configuration whose runtime type would make the Python code raise on
    an unrelated line (for example a non-string prompt template) are out
    of scope and mapped to the benign defaults documented at each parser.
-/

/-! ## JSON values (the raw configuration document) -/

/-- A JSON value, as produced by json.load: the type of the raw
configuration tree held in ConfigManager._raw_config. -/
inductive JValue where
  | null : JValue
  | bool (b : Bool) : JValue
  | num (q : Rat) : JValue
  | str (s : String) : JValue
  | arr (elems : List JValue) : JValue
  | obj (fields : List (String × JValue)) : JValue

/-- First-match association lookup: Python dict lookup on the ordered
association lists that model dicts. -/
def alookup {α : Type} : List (String × α) → String → Option α
  | [], _ => none
  | kv :: rest, k => if kv.1 = k then some kv.2 else alookup rest k

/-- Python dict assignment d[k] = v: replace the first binding of k in
place, or append a new binding. -/
def setKey : List (String × JValue) → String → JValue → List (String × JValue)
  | [], k, v => [(k, v)]
  | kv :: rest, k, v => if kv.1 = k then (kv.1, v) :: rest else kv :: setKey rest k v

/-- dict.get on a JSON object; `none` when the value is not an object or
the key is absent. -/
def jget (j : JValue) (k : String) : Option JValue :=
  match j with
  | JValue.obj kvs => alookup kvs k
  | _ => none

/-- A string field with a default (dict.get(k, default) where a string is
expected; a present non-string value is mapped to the default). -/
def jstrD (j : Option JValue) (d : String) : String :=
  match j with
  | some (JValue.str s) => s
  | _ => d

/-- A numeric field with a default. -/
def jnumD (j : Option JValue) (d : Rat) : Rat :=
  match j with
  | some (JValue.num q) => q
  | _ => d

/-- A boolean field with a default. -/
def jboolD (j : Option JValue) (d : Bool) : Bool :=
  match j with
  | some (JValue.bool b) => b
  | _ => d

/-- A list-of-strings field with a default; non-string elements are
dropped. -/
def jstrListD (j : Option JValue) (d : List String) : List String :=
  match j with
  | some (JValue.arr xs) =>
      xs.filterMap (fun x => match x with | JValue.str s => some s | _ => none)
  | _ => d

/-! ## Format-string templates (Python str.format) -/

/-- One token of a parsed format string: a literal piece, or a named
placeholder (the text between one brace pair). -/
inductive FmtTok where
  | lit (text : String)
  | ph (name : String)
deriving DecidableEq

/-- The opening brace character. -/
def lbrace : Char := Char.ofNat 123

/-- The closing brace character. -/
def rbrace : Char := Char.ofNat 125

/-- Tokenizer for str.format templates; fuel-driven over the character
list (each step consumes at least one character, so fuel = length is
enough).  Doubled braces are the literal escapes of str.format; an
unterminated opening brace (on which str.format would raise ValueError,
outside every claim) is kept as literal text. -/
def parseFmtAux : Nat → List Char → List FmtTok
  | 0, _ => []
  | _ + 1, [] => []
  | fuel + 1, c :: rest =>
    if c = lbrace then
      match rest with
      | [] => [FmtTok.lit (String.mk [c])]
      | c2 :: rest2 =>
        if c2 = lbrace then FmtTok.lit (String.mk [c]) :: parseFmtAux fuel rest2
        else
          let name := (c2 :: rest2).takeWhile (fun ch => ¬ (ch = rbrace))
          match (c2 :: rest2).dropWhile (fun ch => ¬ (ch = rbrace)) with
          | _ :: rest3 => FmtTok.ph (String.mk name) :: parseFmtAux fuel rest3
          | [] => [FmtTok.lit (String.mk (c :: rest))]
    else if c = rbrace then
      match rest with
      | [] => [FmtTok.lit (String.mk [c])]
      | c2 :: rest2 =>
        if c2 = rbrace then FmtTok.lit (String.mk [c]) :: parseFmtAux fuel rest2
        else FmtTok.lit (String.mk [c]) :: parseFmtAux fuel (c2 :: rest2)
    else FmtTok.lit (String.mk [c]) :: parseFmtAux fuel rest

/-- Parse a str.format template into tokens. -/
def parseFmt (s : String) : List FmtTok :=
  parseFmtAux s.data.length s.data

/-- Render one token under a variable assignment: a matched placeholder
becomes its value, an unmatched one stays as its literal marker text. -/
def substTok (vars : List (String × String)) : FmtTok → String
  | FmtTok.lit s => s
  | FmtTok.ph n =>
    match alookup vars n with
    | some v => v
    | none => ("\x7b") ++ n ++ ("\x7d")

/-- Concatenation of a list of strings. -/
def strConcat : List String → String
  | [] => ("")
  | s :: rest => s ++ strConcat rest

/-- Render a whole token list under partial substitution: matched
placeholders substituted, unmatched markers left untouched. -/
def renderSubst (vars : List (String × String)) (ts : List FmtTok) : String :=
  strConcat (ts.map (substTok vars))

/-- Python template.format(**kwargs): `none` models the KeyError raised
when some placeholder has no matching variable, otherwise the fully
substituted text. -/
def formatAll (vars : List (String × String)) : List FmtTok → Option String
  | [] => some ("")
  | FmtTok.lit s :: rest => (formatAll vars rest).map (fun t => s ++ t)
  | FmtTok.ph n :: rest =>
    match alookup vars n with
    | some v => (formatAll vars rest).map (fun t => v ++ t)
    | none => none

/-- True when a character list contains no brace characters. -/
def braceFreeB (cs : List Char) : Bool :=
  cs.all (fun c => c != lbrace && c != rbrace)

/-- A simple named placeholder field: nonempty, not purely digits (which
str.format treats as a positional field, raising IndexError here), and
free of the attribute/index/conversion/format-spec characters on which
str.format goes beyond plain keyword lookup. -/
def validName (n : String) : Bool :=
  !(n.isEmpty) && !(n.data.all (fun c => c.isDigit)) &&
    n.data.all (fun c =>
      c != ('.') && c != (':') && c != ('!') && c != ('[') && c != (']'))

/-- Tokens of the faithfully modelled template domain: brace-free literal
text and brace-free simple named placeholders.  On this domain
str.format either substitutes fully or raises KeyError, which is exactly
the formatAll model. -/
def tokensWF (ts : List FmtTok) : Bool :=
  ts.all (fun t =>
    match t with
    | FmtTok.lit s => braceFreeB s.data
    | FmtTok.ph n => braceFreeB n.data && validName n)

/-- The marker text of a placeholder name, as characters. -/
def markerChars (n : String) : List Char :=
  lbrace :: (n.data ++ [rbrace])

/-- Character-level partial-substitution rendering (renderSubst on
character lists). -/
def renderSubstL (vars : List (String × String)) : List FmtTok → List Char
  | [] => []
  | t :: rest => (substTok vars t).data ++ renderSubstL vars rest

/-- The raw text of a token list: every placeholder as its literal
marker (rendering under the empty assignment). -/
def rawOfToks (ts : List FmtTok) : List Char :=
  renderSubstL [] ts

/-- Match a literal lead: the remainder when the first list is a prefix
of the second, otherwise none. -/
def dropLead : List Char → List Char → Option (List Char)
  | [], cs => some cs
  | _ :: _, [] => none
  | p :: ps, c :: cs => if p = c then dropLead ps cs else none

/-- Python str.replace specialised to the marker patterns the fallback
uses (the old string is always an open brace, a key, and a close brace):
scan left to right, replace each non-overlapping occurrence, and never
rescan replacement text within the same call.  Fuel-driven; every step
consumes at least one character, so fuel = length never runs out. -/
def pyRepAux (key v : List Char) : Nat → List Char → List Char
  | 0, cs => cs
  | _ + 1, [] => []
  | fuel + 1, c :: cs =>
    if c = lbrace then
      match dropLead (key ++ [rbrace]) cs with
      | some rest => v ++ pyRepAux key v fuel rest
      | none => c :: pyRepAux key v fuel cs
    else c :: pyRepAux key v fuel cs

/-- str.replace of one marker over a character list. -/
def pyRepM (key v cs : List Char) : List Char :=
  pyRepAux key v cs.length cs

/-- template.replace of one supplied marker, at the string level. -/
def pyReplaceMarker (s : String) (key v : String) : String :=
  String.mk (pyRepM key.data v.data s.data)

/-- The except-KeyError fallback of build_prompt, exactly as the source
writes it: for each supplied key in order, a literal find/replace of its
marker over the whole (already partially substituted) text. -/
def fallbackReplace (vars : List (String × String)) (template : String) : String :=
  vars.foldl (fun t kv => pyReplaceMarker t kv.1 kv.2) template

/-! ## Entity dataclasses (src/config_manager.py) -/

/-- Character dataclass. -/
structure Character where
  id : String
  name : String
  role : String
  description : String
  personality : String
  visual_cues : String
  virtues : List String
  reference_image : String
  locations : List String
  special_function : Option String
  appears_with_chime : Bool
deriving DecidableEq

/-- Character.from_dict: build a Character from its raw dict with the
source file defaults. -/
def Character.from_dict (char_id : String) (data : JValue) : Character where
  id := char_id
  name := jstrD (jget data ("name")) ("")
  role := jstrD (jget data ("role")) ("core")
  description := jstrD (jget data ("description")) ("")
  personality := jstrD (jget data ("personality")) ("")
  visual_cues := jstrD (jget data ("visual_cues")) ("")
  virtues := jstrListD (jget data ("virtues")) []
  reference_image := jstrD (jget data ("reference_image")) ("")
  locations := jstrListD (jget data ("locations")) []
  special_function :=
    match jget data ("special_function") with
    | some (JValue.str s) => some s
    | _ => none
  appears_with_chime := jboolD (jget data ("appears_with_chime")) false

/-- Location dataclass. -/
structure Location where
  id : String
  name : String
  description : String
  associated_virtues : List String
  associated_characters : List String
deriving DecidableEq

/-- Location.from_dict with the source file defaults. -/
def Location.from_dict (loc_id : String) (data : JValue) : Location where
  id := loc_id
  name := jstrD (jget data ("name")) ("")
  description := jstrD (jget data ("description")) ("")
  associated_virtues := jstrListD (jget data ("associated_virtues")) []
  associated_characters := jstrListD (jget data ("associated_characters")) []

/-- Book dataclass; scenes stay raw dicts exactly as in the source. -/
structure Book where
  id : String
  title : String
  book_number : Rat
  virtue : String
  featured_character : String
  supporting_characters : List String
  primary_location : String
  prop : String
  mantra : String
  micro_ritual : List (String × JValue)
  scenes : List JValue

/-- Book.from_dict with the source file defaults; a non-list scenes value
(which would make the Python iteration raise elsewhere) is mapped to []. -/
def Book.from_dict (book_id : String) (data : JValue) : Book where
  id := book_id
  title := jstrD (jget data ("title")) ("")
  book_number := jnumD (jget data ("book_number")) 0
  virtue := jstrD (jget data ("virtue")) ("")
  featured_character := jstrD (jget data ("featured_character")) ("")
  supporting_characters := jstrListD (jget data ("supporting_characters")) []
  primary_location := jstrD (jget data ("primary_location")) ("")
  prop := jstrD (jget data ("prop")) ("")
  mantra := jstrD (jget data ("mantra")) ("")
  micro_ritual := match jget data ("micro_ritual") with
    | some (JValue.obj kvs) => kvs
    | _ => []
  scenes := match jget data ("scenes") with
    | some (JValue.arr xs) => xs
    | _ => []

/-! ## ConfigManager (src/config_manager.py) -/

/-- The in-memory state of a ConfigManager: the raw configuration object
(_raw_config, a JSON object) plus the typed views _parse_config derives
from it.  The image-settings view is omitted: no modelled operation reads
it. -/
structure ConfigManager where
  raw : List (String × JValue)
  characters : List (String × Character)
  locations : List (String × Location)
  books : List (String × Book)
  style_presets : List (String × JValue)
  prompt_templates : List (String × String)

/-- The typed-view part of _parse_config for one entity section: map each
(id, dict) entry through from_dict. -/
def parseSection {α : Type} (raw : List (String × JValue)) (key : String)
    (mk : String → JValue → α) : List (String × α) :=
  match alookup raw key with
  | some (JValue.obj kvs) => kvs.map (fun kv => (kv.1, mk kv.1 kv.2))
  | _ => []

/-- _parse_config followed by the constructor bookkeeping of load: parse
the raw configuration object into the typed views.  Prompt-template
entries whose value is not a string (on which the Python .format call
would raise elsewhere) are dropped from the typed view. -/
def parse_config (raw : List (String × JValue)) : ConfigManager where
  raw := raw
  characters := parseSection raw ("characters") Character.from_dict
  locations := parseSection raw ("locations") Location.from_dict
  books := parseSection raw ("books") Book.from_dict
  style_presets :=
    match alookup raw ("style_presets") with
    | some (JValue.obj kvs) => kvs
    | _ => []
  prompt_templates :=
    match alookup raw ("prompt_templates") with
    | some (JValue.obj kvs) =>
        kvs.filterMap (fun kv =>
          match kv.2 with
          | JValue.str s => some (kv.1, s)
          | _ => none)
    | _ => []

/-- ConfigManager.load on an already-deserialized document: json.load
followed by _parse_config, fully replacing any previous state. -/
def config_load (doc : List (String × JValue)) : ConfigManager :=
  parse_config doc

/-- ConfigManager.save: serialize the current raw state.  json.dump
followed by json.load is the identity on JSON values, so the document a
later load would deserialize is the raw state itself. -/
def config_save (cfg : ConfigManager) : List (String × JValue) :=
  cfg.raw

/-- ConfigManager.active_style. -/
def active_style (cfg : ConfigManager) : String :=
  jstrD (alookup cfg.raw ("active_style")) ("default")

/-- ConfigManager.get_style_prompt. -/
def get_style_prompt (cfg : ConfigManager) (style_name : String) : String :=
  match alookup cfg.style_presets style_name with
  | some j => jstrD (jget j ("prompt")) ("")
  | none => ("")

/-- ConfigManager.active_style_prompt. -/
def active_style_prompt (cfg : ConfigManager) : String :=
  get_style_prompt cfg (active_style cfg)

/-- ConfigManager.cost_per_image: api config with default 0.04. -/
def cost_per_image (cfg : ConfigManager) : Rat :=
  match alookup cfg.raw ("api") with
  | some j => jnumD (jget j ("cost_per_image")) ((4 : Rat) / 100)
  | none => (4 : Rat) / 100

/-- ConfigManager.paths lookup with a per-call default, as
self.config.paths.get(key, default) is used throughout the generator. -/
def path_get (cfg : ConfigManager) (key d : String) : String :=
  match alookup cfg.raw ("paths") with
  | some (JValue.obj kvs) => jstrD (alookup kvs key) d
  | _ => d

/-- The generation_settings dict (default empty). -/
def generation_settings (cfg : ConfigManager) : JValue :=
  match alookup cfg.raw ("generation_settings") with
  | some j => j
  | none => JValue.obj []

/-- generation_settings.get("rate_limit_delay_seconds", 1): the
configured inter-request delay. -/
def rate_delay (cfg : ConfigManager) : Rat :=
  jnumD (jget (generation_settings cfg) ("rate_limit_delay_seconds")) 1

/-- ConfigManager.get_character. -/
def get_character (cfg : ConfigManager) (char_id : String) : Option Character :=
  alookup cfg.characters char_id

/-- ConfigManager.get_location. -/
def get_location (cfg : ConfigManager) (loc_id : String) : Option Location :=
  alookup cfg.locations loc_id

/-- ConfigManager.get_book. -/
def get_book (cfg : ConfigManager) (book_id : String) : Option Book :=
  alookup cfg.books book_id

/-- ConfigManager.list_character_ids. -/
def list_character_ids (cfg : ConfigManager) : List String :=
  cfg.characters.map (fun kv => kv.1)

/-- ConfigManager.get_prompt_template (default empty string). -/
def get_prompt_template (cfg : ConfigManager) (template_name : String) : String :=
  match alookup cfg.prompt_templates template_name with
  | some s => s
  | none => ("")

/-- ConfigManager.set_active_style: mutates only the raw active_style
pointer (no re-parse is run) and reports success; an unknown id leaves
the whole state untouched. -/
def set_active_style (cfg : ConfigManager) (style_name : String) : Bool × ConfigManager :=
  if (alookup cfg.style_presets style_name).isSome then
    (true, { cfg with raw := setKey cfg.raw ("active_style") (JValue.str style_name) })
  else
    (false, cfg)

/-- The variable assignment build_prompt actually formats with: the
caller variables, with the active style prompt auto-appended under
style_prompt when the caller did not supply it. -/
def with_style (cfg : ConfigManager) (vars : List (String × String)) :
    List (String × String) :=
  if (alookup vars ("style_prompt")).isSome then vars
  else vars ++ [(("style_prompt"), active_style_prompt cfg)]

/-- ConfigManager.build_prompt: look the template up (empty text for an
unknown name, returned unchanged), auto-supply style_prompt, then try the
full format; on a missing placeholder (KeyError) fall back to the
source's sequential literal find/replace of each supplied marker over
the raw template text. -/
def build_prompt (cfg : ConfigManager) (template_name : String)
    (vars : List (String × String)) : String :=
  let template := get_prompt_template cfg template_name
  if template.isEmpty then ("")
  else
    let vars2 := with_style cfg vars
    match formatAll vars2 (parseFmt template) with
    | some s => s
    | none => fallbackReplace vars2 template

/-- ConfigManager.get_character_description_block: one "name: description"
line per resolvable id, in the order supplied, unknown ids skipped. -/
def get_character_description_block (cfg : ConfigManager) (char_ids : List String) :
    String :=
  String.intercalate ("\n")
    (char_ids.filterMap (fun cid =>
      (get_character cfg cid).map (fun ch => ch.name ++ (": ") ++ ch.description)))

/-! ## Generation engine (src/generator.py) -/

/-- GenerationResult dataclass, with the dataclass field defaults (note
the fixed 0.04 cost default on failure results, independent of the
configured cost). -/
structure GenerationResult where
  success : Bool
  output_path : Option String := none
  image_url : Option String := none
  prompt_used : String := ""
  error : Option String := none
  cost : Rat := (4 : Rat) / 100
  generation_time : Rat := 0
  metadata : List (String × JValue) := []

/-- The engine-scoped reference-upload cache _uploaded_images: local path
to previously obtained remote URL. -/
def Cache : Type := String → Option String

/-- The empty cache a fresh OptimistFarmGenerator starts with. -/
def empty_cache : Cache := fun _ => none

/-- The external world of one generator run.  fileExists is
Path.exists; upload is fal_client.upload (raw bytes abstracted away);
synth is _call_api together with the result["images"][0]["url"]
extraction; save is _save_image (download plus write, returning
str(output_path)); now stands for the datetime timestamp fragments of
default file names.  An oracle's error case is a raised exception with
that message. -/
structure GenEnv where
  fileExists : String → Bool
  upload : String → Except String String
  synth : String → Option String → Except String String
  save : String → String → Except String String
  now : String

/-- Functional update of the reference cache:
self._uploaded_images[image_path] = url. -/
def cacheUpd (cache : Cache) (image_path url : String) : Cache :=
  fun p => if p = image_path then some url else cache p

/-- Python truthiness of an optional string argument: None and the empty
string both count as unset. -/
def strOpt (o : Option String) : Option String :=
  match o with
  | none => none
  | some s => if s.isEmpty then none else some s

/-- str.startswith("http"). -/
def startsWithHttp (s : String) : Bool :=
  decide (s.data.take 4 = ("http").data)

/-- OptimistFarmGenerator._upload_image.  Returns the usable remote URL,
the updated cache, and how many remote upload calls this invocation
performed (0 or 1); the error case is the raised FileNotFoundError or a
failed remote upload.  Order of checks follows the source: URL
passthrough, then cache (unless force), then local existence, then the
remote upload with cache insertion. -/
def upload_image (env : GenEnv) (cache : Cache) (image_path : String)
    (force : Bool) : Except String (String × Cache × Nat) :=
  if startsWithHttp image_path then Except.ok (image_path, cache, 0)
  else
    match (if force then none else cache image_path) with
    | some url => Except.ok (url, cache, 0)
    | none =>
      if env.fileExists image_path then
        match env.upload image_path with
        | Except.ok url => Except.ok (url, cacheUpd cache image_path url, 1)
        | Except.error e => Except.error e
      else Except.error (("Image not found: ") ++ image_path)

/-- The shared try-block of the four generation operations: resolve the
optional reference (upload, force=False), invoke the remote synthesis
call, then save the result when a save path was computed (save_to_disk).
The cache is returned in every case because _uploaded_images is instance
state that survives a raised exception. -/
def tryGenerate (env : GenEnv) (cache : Cache) (prompt : String)
    (reference : Option String) (savePath : Option String) :
    Except String (String × Option String) × Cache :=
  match (match reference with
         | none => Except.ok ((none : Option String), cache)
         | some p =>
           match upload_image env cache p false with
           | Except.ok r => Except.ok (some r.1, r.2.1)
           | Except.error e => Except.error e) with
  | Except.error e => (Except.error e, cache)
  | Except.ok (refUrl, cache1) =>
    match env.synth prompt refUrl with
    | Except.error e => (Except.error e, cache1)
    | Except.ok image_url =>
      match savePath with
      | none => (Except.ok (image_url, none), cache1)
      | some pth =>
        match env.save image_url pth with
        | Except.error e => (Except.error e, cache1)
        | Except.ok saved => (Except.ok (image_url, some saved), cache1)

/-- The result packaging shared verbatim by the four operations: a raised
exception becomes a failed result carrying the prompt and the message
(all other fields at their dataclass defaults), a completed try block
becomes a successful result carrying url, saved path, prompt, the
configured cost and the operation metadata. -/
def finishResult (tg : Except String (String × Option String) × Cache)
    (prompt : String) (cost : Rat) (md : List (String × JValue)) :
    GenerationResult × Cache :=
  match tg with
  | (Except.error e, c) =>
    ({ success := false, error := some e, prompt_used := prompt }, c)
  | (Except.ok (url, saved), c) =>
    ({ success := true, output_path := saved, image_url := some url,
       prompt_used := prompt, cost := cost, metadata := md }, c)

/-- OptimistFarmGenerator.generate_hero_shot. -/
def generate_hero_shot (cfg : ConfigManager) (save_to_disk : Bool) (env : GenEnv)
    (cache : Cache) (character_id : String)
    (reference_image location_id custom_prompt output_name : Option String) :
    GenerationResult × Cache :=
  match get_character cfg character_id with
  | none =>
    ({ success := false, error := some (("Character not found: ") ++ character_id) },
     cache)
  | some character =>
    let location_desc :=
      match strOpt location_id with
      | some lid =>
        match get_location cfg lid with
        | some l => l.description
        | none => ("soft, neutral background")
      | none => ("soft, neutral background")
    let prompt :=
      match strOpt custom_prompt with
      | some p => p
      | none =>
        build_prompt cfg ("hero_shot")
          [(("character_name"), character.name),
           (("character_description"), character.description),
           (("location"), location_desc),
           (("style_prompt"), active_style_prompt cfg)]
    let savePath :=
      if save_to_disk then
        let char_dir :=
          path_get cfg ("character_references") ("./reference_images/characters")
            ++ ("/") ++ character_id
        let filename :=
          match strOpt output_name with
          | some onm => onm ++ (".jpg")
          | none => ("hero_") ++ env.now ++ (".jpg")
        some (char_dir ++ ("/") ++ filename)
      else none
    finishResult (tryGenerate env cache prompt (strOpt reference_image) savePath)
      prompt (cost_per_image cfg)
      [(("character_id"), JValue.str character_id),
       (("character_name"), JValue.str character.name),
       (("type"), JValue.str ("hero_shot"))]

/-- OptimistFarmGenerator.generate_group_shot. -/
def generate_group_shot (cfg : ConfigManager) (save_to_disk : Bool) (env : GenEnv)
    (cache : Cache) (character_ids : List String)
    (reference_image location_id custom_prompt output_name : Option String) :
    GenerationResult × Cache :=
  let characters := character_ids.filterMap (get_character cfg)
  if characters.isEmpty then
    ({ success := false, error := some ("No valid characters found") }, cache)
  else
    let char_names := characters.map (fun c => c.name)
    let char_list := String.intercalate (", ") char_names
    let char_descriptions :=
      String.intercalate ("\n")
        (characters.map (fun c => ("- ") ++ c.name ++ (": ") ++ c.description))
    let location_desc :=
      match strOpt location_id with
      | some lid =>
        match get_location cfg lid with
        | some l => l.description
        | none => ("beautiful farm setting with rolling hills")
      | none => ("beautiful farm setting with rolling hills")
    let prompt :=
      match strOpt custom_prompt with
      | some p => p
      | none =>
        build_prompt cfg ("group_shot")
          [(("character_list"), char_list),
           (("character_descriptions"), char_descriptions),
           (("location_description"), location_desc),
           (("style_prompt"), active_style_prompt cfg)]
    let savePath :=
      if save_to_disk then
        let dir := path_get cfg ("group_shots") ("./reference_images/group_shots")
        let filename :=
          match strOpt output_name with
          | some onm => onm ++ (".jpg")
          | none =>
            let char_abbrev :=
              String.intercalate ("_")
                ((character_ids.take 4).map (fun c => String.mk (c.data.take 3)))
            ("group_") ++ char_abbrev ++ ("_") ++ env.now ++ (".jpg")
        some (dir ++ ("/") ++ filename)
      else none
    finishResult (tryGenerate env cache prompt (strOpt reference_image) savePath)
      prompt (cost_per_image cfg)
      [(("character_ids"), JValue.arr (character_ids.map JValue.str)),
       (("character_names"), JValue.arr (char_names.map JValue.str)),
       (("type"), JValue.str ("group_shot"))]

/-- OptimistFarmGenerator.generate_scene.  The reference image is a
required argument and is uploaded unconditionally inside the try block;
scene characters resolve with unknown ids silently skipped. -/
def generate_scene (cfg : ConfigManager) (save_to_disk : Bool) (env : GenEnv)
    (cache : Cache) (scene_prompt : String) (character_ids : List String)
    (reference_image : String) (location_id output_name : Option String)
    (additional_notes : String) : GenerationResult × Cache :=
  let characters := character_ids.filterMap (get_character cfg)
  let char_list := String.intercalate (", ") (characters.map (fun c => c.name))
  let char_descriptions := get_character_description_block cfg character_ids
  let location_desc :=
    match strOpt location_id with
    | some lid =>
      match get_location cfg lid with
      | some l => l.description
      | none => ("")
    | none => ("")
  let base_prompt :=
    build_prompt cfg ("scene")
      [(("scene_description"), scene_prompt),
       (("character_list"), char_list),
       (("character_descriptions"), char_descriptions),
       (("location_description"), location_desc),
       (("additional_notes"), additional_notes),
       (("style_prompt"), active_style_prompt cfg)]
  let consistency := get_prompt_template cfg ("consistency_suffix")
  let prompt :=
    if consistency.isEmpty then base_prompt
    else base_prompt ++ ("\n\n") ++ consistency
  let savePath :=
    if save_to_disk then
      let dir := path_get cfg ("output") ("./output")
      let filename :=
        match strOpt output_name with
        | some onm => onm ++ (".jpg")
        | none =>
          let safe_prompt :=
            String.mk (((scene_prompt.data.take 25).map
              (fun c => if c = (' ') then ('_') else c)).filter
                (fun c => ¬ (c = (','))))
          ("scene_") ++ safe_prompt ++ ("_") ++ env.now ++ (".jpg")
      some (dir ++ ("/") ++ filename)
    else none
  finishResult (tryGenerate env cache prompt (some reference_image) savePath)
    prompt (cost_per_image cfg)
    [(("scene_prompt"), JValue.str scene_prompt),
     (("character_ids"), JValue.arr (character_ids.map JValue.str)),
     (("type"), JValue.str ("scene"))]

/-- OptimistFarmGenerator.generate_cover. -/
def generate_cover (cfg : ConfigManager) (save_to_disk : Bool) (env : GenEnv)
    (cache : Cache) (book_id : String) (reference_image : String)
    (custom_prompt output_name : Option String) : GenerationResult × Cache :=
  match get_book cfg book_id with
  | none =>
    ({ success := false, error := some (("Book not found: ") ++ book_id) }, cache)
  | some book =>
    match get_character cfg book.featured_character with
    | none =>
      ({ success := false,
         error := some (("Featured character not found: ") ++ book.featured_character) },
       cache)
    | some featured =>
      let location_desc :=
        match get_location cfg book.primary_location with
        | some l => l.description
        | none => ("beautiful farm setting")
      let prompt :=
        match strOpt custom_prompt with
        | some p => p
        | none =>
          build_prompt cfg ("cover")
            [(("book_title"), book.title),
             (("virtue"), book.virtue),
             (("featured_character_name"), featured.name),
             (("featured_character_description"), featured.description),
             (("location_description"), location_desc),
             (("style_prompt"), active_style_prompt cfg)]
      let savePath :=
        if save_to_disk then
          let dir := path_get cfg ("covers_output") ("./output/covers")
          let filename :=
            match strOpt output_name with
            | some onm => onm ++ (".jpg")
            | none => ("cover_") ++ book_id ++ (".jpg")
          some (dir ++ ("/") ++ filename)
        else none
      finishResult (tryGenerate env cache prompt (some reference_image) savePath)
        prompt (cost_per_image cfg)
        [(("book_id"), JValue.str book_id),
         (("book_title"), JValue.str book.title),
         (("type"), JValue.str ("cover"))]

/-! ## Batch orchestration (src/generator.py) -/

/-- One observable step of a batch run: one generation-engine invocation,
or one time.sleep of the configured delay. -/
inductive Ev where
  | gen : Ev
  | sleep (d : Rat) : Ev
deriving DecidableEq

/-- The loop body of generate_all_hero_shots: generate each id in order,
sleeping the configured delay between consecutive items and not after
the last (the source guards the sleep with i < len). -/
def hero_batch_loop (cfg : ConfigManager) (save_to_disk : Bool) (env : GenEnv)
    (d : Rat) (reference_image : Option String) :
    Cache → List String → List GenerationResult × Cache × List Ev
  | cache, [] => ([], cache, [])
  | cache, cid :: rest =>
    let pr := generate_hero_shot cfg save_to_disk env cache cid reference_image
      none none none
    match rest with
    | [] => ([pr.1], pr.2, [Ev.gen])
    | r2 :: rs =>
      let nxt := hero_batch_loop cfg save_to_disk env d reference_image pr.2 (r2 :: rs)
      (pr.1 :: nxt.1, nxt.2.1, Ev.gen :: Ev.sleep d :: nxt.2.2)

/-- The ids generate_all_hero_shots targets: the explicit subset when it
is a non-empty list (Python `character_ids or ...` treats an empty list
as unset), else every configured character id in stored order. -/
def hero_target_ids (cfg : ConfigManager) (character_ids : Option (List String)) :
    List String :=
  match character_ids with
  | some l => if l.isEmpty then list_character_ids cfg else l
  | none => list_character_ids cfg

/-- OptimistFarmGenerator.generate_all_hero_shots, with its event trace. -/
def generate_all_hero_shots (cfg : ConfigManager) (save_to_disk : Bool)
    (env : GenEnv) (cache : Cache) (reference_image : Option String)
    (character_ids : Option (List String)) :
    List GenerationResult × Cache × List Ev :=
  hero_batch_loop cfg save_to_disk env (rate_delay cfg) reference_image cache
    (hero_target_ids cfg character_ids)

/-- The page of a raw scene dict: scene.get("page", default). -/
def pageOf (s : JValue) (d : Rat) : Rat :=
  jnumD (jget s ("page")) d

/-- The page-range filter of generate_book: keep exactly the scenes whose
page lies inclusively between start and stop (absent pages default 0). -/
def filterScenes (start stop : Rat) (scenes : List JValue) : List JValue :=
  scenes.filter (fun s => decide (start ≤ pageOf s 0 ∧ pageOf s 0 ≤ stop))

/-- The scene list generate_book iterates: the page-range filter applied
when a range is supplied. -/
def book_filtered_scenes (book : Book) (page_range : Option (Rat × Rat)) :
    List JValue :=
  match page_range with
  | some r => filterScenes r.1 r.2 book.scenes
  | none => book.scenes

/-- Zero-padded rendering of an integral page number, f"{page_num:02d}"
(the padding path of the source; a non-integral page, on which Python
would raise, renders as the rational itself). -/
def pad2 (q : Rat) : String :=
  if q.den = 1 then
    if 0 ≤ q.num ∧ q.num < 10 then ("0") ++ toString q.num else toString q.num
  else toString q

/-- The scene loop of generate_book: each filtered scene in its original
order, the 1-based index supplying the page default and the
between-items-only sleep guard (i < len). -/
def book_scene_loop (cfg : ConfigManager) (save_to_disk : Bool) (env : GenEnv)
    (d : Rat) (all_char_ids : List String) (primary_location : String)
    (output_dir : String) (reference_image : String) :
    Cache → List JValue → Nat → List GenerationResult × Cache × List Ev
  | cache, [], _ => ([], cache, [])
  | cache, s :: rest, i =>
    let page_num := pageOf s (i : Rat)
    let scene_prompt := jstrD (jget s ("prompt")) ("")
    let scene_chars :=
      match jget s ("characters") with
      | some v => jstrListD (some v) []
      | none => all_char_ids
    let pr := generate_scene cfg save_to_disk env cache scene_prompt scene_chars
      reference_image (some primary_location)
      (some (output_dir ++ ("/page_") ++ pad2 page_num)) ("")
    match rest with
    | [] => ([pr.1], pr.2, [Ev.gen])
    | s2 :: ss =>
      let nxt := book_scene_loop cfg save_to_disk env d all_char_ids
        primary_location output_dir reference_image pr.2 (s2 :: ss) (i + 1)
      (pr.1 :: nxt.1, nxt.2.1, Ev.gen :: Ev.sleep d :: nxt.2.2)

/-- OptimistFarmGenerator.generate_book, with its event trace.  An
unknown book or a book with zero configured scenes yields the empty
list; the cover (when requested) comes first and is always followed by
one sleep; then the filtered scenes in original order with sleeps only
between consecutive scenes. -/
def generate_book (cfg : ConfigManager) (save_to_disk : Bool) (env : GenEnv)
    (cache : Cache) (book_id : String) (reference_image : String)
    (include_cover : Bool) (page_range : Option (Rat × Rat)) :
    List GenerationResult × Cache × List Ev :=
  match get_book cfg book_id with
  | none => ([], cache, [])
  | some book =>
    if book.scenes.isEmpty then ([], cache, [])
    else
      let scenes := book_filtered_scenes book page_range
      let all_char_ids := book.featured_character :: book.supporting_characters
      let output_dir :=
        path_get cfg ("books_output") ("./output/books") ++ ("/") ++ book_id
      let d := rate_delay cfg
      if include_cover then
        let cpr := generate_cover cfg save_to_disk env cache book_id reference_image
          none (some (output_dir ++ ("/cover")))
        let nxt := book_scene_loop cfg save_to_disk env d all_char_ids
          book.primary_location output_dir reference_image cpr.2 scenes 1
        (cpr.1 :: nxt.1, nxt.2.1, Ev.gen :: Ev.sleep d :: nxt.2.2)
      else
        book_scene_loop cfg save_to_disk env d all_char_ids
          book.primary_location output_dir reference_image cache scenes 1

/-! ## Concrete fixtures used by witnesses and counterexamples -/

/-- Predicate of the error-handling contract: a result either succeeded
with no error recorded, or failed with a human-readable error captured in
the error field. -/
def captures (r : GenerationResult) : Prop :=
  (r.success = true ∧ r.error = none) ∨ (r.success = false ∧ r.error.isSome = true)

/-- A small configuration document: one character, one active style
preset, a hero-shot template and a two-placeholder template. -/
def test_cfg : ConfigManager :=
  config_load
    [(("active_style"), JValue.str ("pixar")),
     (("style_presets"), JValue.obj
       [(("pixar"), JValue.obj
         [(("name"), JValue.str ("Pixar")),
          (("prompt"), JValue.str ("pixar style 3D render"))])]),
     (("prompt_templates"), JValue.obj
       [(("hero_shot"), JValue.str ("{character_name} in {style_prompt}")),
        (("greet"), JValue.str ("{a} and {b}"))]),
     (("characters"), JValue.obj
       [(("barnaby_bunny"), JValue.obj [(("name"), JValue.str ("Barnaby"))])]),
     (("api"), JValue.obj [(("cost_per_image"), JValue.num ((4 : Rat) / 100))])]

/-- The character test_cfg parses for barnaby_bunny. -/
def barnaby_char : Character :=
  Character.from_dict ("barnaby_bunny")
    (JValue.obj [(("name"), JValue.str ("Barnaby"))])

/-- An environment whose synthesis call always succeeds with one fixed
remote handle and whose save step succeeds. -/
def env_ok : GenEnv where
  fileExists := fun _ => false
  upload := fun _ => Except.error ("upload disabled")
  synth := fun _ _ => Except.ok ("https://img.example/out.jpg")
  save := fun _ p => Except.ok p
  now := ("20250101_000000")

/-- The raw dict of the three-scene test book. -/
def b1_data : JValue :=
  JValue.obj
    [(("title"), JValue.str ("Book One")),
     (("featured_character"), JValue.str ("barney")),
     (("scenes"), JValue.arr
       [JValue.obj [(("page"), JValue.num 1), (("prompt"), JValue.str ("one"))],
        JValue.obj [(("page"), JValue.num 2), (("prompt"), JValue.str ("two"))],
        JValue.obj [(("page"), JValue.num 3), (("prompt"), JValue.str ("three"))]])]

/-- A configuration with one character and a three-scene book. -/
def cfg_book : ConfigManager :=
  config_load
    [(("characters"), JValue.obj
       [(("barney"), JValue.obj [(("name"), JValue.str ("Barney"))])]),
     (("books"), JValue.obj [(("b1"), b1_data)]),
     (("prompt_templates"), JValue.obj
       [(("scene"), JValue.str ("{scene_description}"))])]

/-- The Book value cfg_book parses for b1. -/
def book_b1 : Book := Book.from_dict ("b1") b1_data

/-- A stubbed environment whose synthesis call fails exactly on the
prompt of the second scene and succeeds otherwise. -/
def env_book : GenEnv where
  fileExists := fun _ => false
  upload := fun _ => Except.error ("no upload")
  synth := fun p _ => if p = ("two") then Except.error ("boom") else Except.ok ("https://img.example/s.jpg")
  save := fun _ p => Except.ok p
  now := ("000000")

/-- A configuration whose only book has one scene on page 1 and a
featured character that does not exist (so the cover item fails fast). -/
def cfg_c5 : ConfigManager :=
  config_load
    [(("books"), JValue.obj
       [(("b1"), JValue.obj
         [(("featured_character"), JValue.str ("ghost")),
          (("scenes"), JValue.arr [JValue.obj [(("page"), JValue.num 1)]])])])]

/-- An environment for exercising the reference resolver: exactly one
local file exists and uploads return one fixed handle. -/
def env_up : GenEnv where
  fileExists := fun s => decide (s = ("local.jpg"))
  upload := fun _ => Except.ok ("https://u.example/1.jpg")
  synth := fun _ _ => Except.error ("unused")
  save := fun _ _ => Except.error ("unused")
  now := ("t")

/-- A configuration whose only template holds the placeholders a and c
(written with escaped braces in this source text), used to exhibit the
sequential-fallback rescan: calling it with a mapped to the literal
marker of b, and b mapped to B, makes the second replace pass rewrite
inside the text the first pass substituted. -/
def cfg_c4 : ConfigManager :=
  config_load
    [(("prompt_templates"), JValue.obj
      [(("t"), JValue.str ("\x7ba\x7d \x7bc\x7d"))])]

/-- Raw scenes with pages 1, 2, 3, 5, 8 (the spec's filtering example). -/
def pages_example : List JValue :=
  [JValue.obj [(("page"), JValue.num 1)],
   JValue.obj [(("page"), JValue.num 2)],
   JValue.obj [(("page"), JValue.num 3)],
   JValue.obj [(("page"), JValue.num 5)],
   JValue.obj [(("page"), JValue.num 8)]]

/-! ## Helper lemmas -/

/-- When the full format succeeds, it agrees with partial-substitution
rendering (every placeholder was matched, so no marker is left). -/
theorem formatAll_some (vars : List (String × String)) :
    ∀ (ts : List FmtTok) (s : String), formatAll vars ts = some s →
      renderSubst vars ts = s := by
  intro ts
  induction ts with
  | nil =>
    intro s h
    simp [formatAll] at h
    simp [renderSubst, strConcat, h]
  | cons t rest ih =>
    intro s h
    cases t with
    | lit l =>
      simp [formatAll] at h
      obtain ⟨u, hu, hs⟩ := h
      simp [renderSubst, strConcat, substTok] at *
      rw [ih u hu, hs]
    | ph n =>
      simp [formatAll] at h
      cases hl : alookup vars n with
      | none => rw [hl] at h; simp at h
      | some v =>
        rw [hl] at h
        simp at h
        obtain ⟨u, hu, hs⟩ := h
        simp [renderSubst, strConcat, substTok, hl] at *
        rw [ih u hu, hs]

/-- Looking up a key after setting it yields the new value. -/
theorem alookup_setKey (kvs : List (String × JValue)) (k : String) (v : JValue) :
    alookup (setKey kvs k v) k = some v := by
  induction kvs with
  | nil => simp [setKey, alookup]
  | cons kv rest ih =>
    by_cases h : kv.1 = k
    · simp [setKey, alookup, h]
    · simp [setKey, alookup, h, ih]

/-- The shared packaging step always produces a result that either
succeeded with no error or failed with an error message captured. -/
theorem captures_finish (tg : Except String (String × Option String) × Cache)
    (prompt : String) (cost : Rat) (md : List (String × JValue)) :
    captures (finishResult tg prompt cost md).1 :=
  match tg with
  | (Except.error _, _) => Or.inr ⟨rfl, rfl⟩
  | (Except.ok (_, _), _) => Or.inl ⟨rfl, rfl⟩

/-- Hero-shot results satisfy the captured-error contract. -/
theorem hero_captures (cfg : ConfigManager) (sd : Bool) (env : GenEnv)
    (cache : Cache) (cid : String) (ref loc cp onm : Option String) :
    captures (generate_hero_shot cfg sd env cache cid ref loc cp onm).1 := by
  unfold generate_hero_shot
  cases get_character cfg cid with
  | none => exact Or.inr ⟨rfl, rfl⟩
  | some ch => exact captures_finish _ _ _ _

/-- Group-shot results satisfy the captured-error contract. -/
theorem group_captures (cfg : ConfigManager) (sd : Bool) (env : GenEnv)
    (cache : Cache) (cids : List String) (ref loc cp onm : Option String) :
    captures (generate_group_shot cfg sd env cache cids ref loc cp onm).1 := by
  unfold generate_group_shot
  dsimp only
  split
  · exact Or.inr ⟨rfl, rfl⟩
  · exact captures_finish _ _ _ _

/-- Scene results satisfy the captured-error contract. -/
theorem scene_captures (cfg : ConfigManager) (sd : Bool) (env : GenEnv)
    (cache : Cache) (sp : String) (cids : List String) (ri : String)
    (loc onm : Option String) (addn : String) :
    captures (generate_scene cfg sd env cache sp cids ri loc onm addn).1 := by
  unfold generate_scene
  exact captures_finish _ _ _ _

/-- Cover results satisfy the captured-error contract. -/
theorem cover_captures (cfg : ConfigManager) (sd : Bool) (env : GenEnv)
    (cache : Cache) (bid ri : String) (cp onm : Option String) :
    captures (generate_cover cfg sd env cache bid ri cp onm).1 := by
  unfold generate_cover
  cases get_book cfg bid with
  | none => exact Or.inr ⟨rfl, rfl⟩
  | some book =>
    dsimp only
    cases get_character cfg book.featured_character with
    | none => exact Or.inr ⟨rfl, rfl⟩
    | some featured => exact captures_finish _ _ _ _

/-- The hero batch loop yields one result per target id, whatever each
item's outcome. -/
theorem hero_batch_loop_length (cfg : ConfigManager) (sd : Bool) (env : GenEnv)
    (d : Rat) (ref : Option String) :
    ∀ (ids : List String) (cache : Cache),
      (hero_batch_loop cfg sd env d ref cache ids).1.length = ids.length := by
  intro ids
  induction ids with
  | nil => intro cache; rfl
  | cons cid rest ih =>
    intro cache
    cases rest with
    | nil => rfl
    | cons r2 rs =>
      simp only [hero_batch_loop, List.length_cons]
      rw [ih]
      simp

/-- The hero batch trace is one generation per id with the configured
sleep interspersed strictly between consecutive items. -/
theorem hero_batch_loop_trace (cfg : ConfigManager) (sd : Bool) (env : GenEnv)
    (d : Rat) (ref : Option String) :
    ∀ (ids : List String) (cache : Cache),
      (hero_batch_loop cfg sd env d ref cache ids).2.2
        = List.intersperse (Ev.sleep d) (List.replicate ids.length Ev.gen) := by
  intro ids
  induction ids with
  | nil => intro cache; rfl
  | cons cid rest ih =>
    intro cache
    cases rest with
    | nil => rfl
    | cons r2 rs =>
      simp only [hero_batch_loop, List.length_cons, List.replicate, List.intersperse]
      rw [ih]
      simp [List.replicate]

/-- The book scene loop yields one result per filtered scene, whatever
each item's outcome. -/
theorem book_scene_loop_length (cfg : ConfigManager) (sd : Bool) (env : GenEnv)
    (d : Rat) (acs : List String) (ploc odir ref : String) :
    ∀ (scenes : List JValue) (cache : Cache) (i : Nat),
      (book_scene_loop cfg sd env d acs ploc odir ref cache scenes i).1.length
        = scenes.length := by
  intro scenes
  induction scenes with
  | nil => intro cache i; rfl
  | cons s rest ih =>
    intro cache i
    cases rest with
    | nil => rfl
    | cons s2 ss =>
      simp only [book_scene_loop, List.length_cons]
      rw [ih]
      simp

/-- The book scene trace is one generation per filtered scene with the
configured sleep interspersed strictly between consecutive scenes. -/
theorem book_scene_loop_trace (cfg : ConfigManager) (sd : Bool) (env : GenEnv)
    (d : Rat) (acs : List String) (ploc odir ref : String) :
    ∀ (scenes : List JValue) (cache : Cache) (i : Nat),
      (book_scene_loop cfg sd env d acs ploc odir ref cache scenes i).2.2
        = List.intersperse (Ev.sleep d) (List.replicate scenes.length Ev.gen) := by
  intro scenes
  induction scenes with
  | nil => intro cache i; rfl
  | cons s rest ih =>
    intro cache i
    cases rest with
    | nil => rfl
    | cons s2 ss =>
      simp only [book_scene_loop, List.length_cons, List.replicate, List.intersperse]
      rw [ih]
      simp [List.replicate]

/-! ## The claims -/

/-- Claim C1: each of the four generation operations (hero shot, group
shot, scene, cover) is a total function into GenerationResult for every
input and environment (exceptions inside the try block are the oracles'
error cases): every result either succeeded with no error or failed with
the failure captured in the error field, and in particular a missing
character, no valid group character, and a missing book each yield the
failed result whose error field holds the corresponding message; since
the environment is arbitrary, this also covers missing reference files
and remote upload/synthesis failures. -/
theorem claim_C1 (cfg : ConfigManager) (sd : Bool) (env : GenEnv) (cache : Cache)
    (cid : String) (cids : List String) (scene_text reference_req addn bid : String)
    (ref loc cp onm : Option String) :
    captures (generate_hero_shot cfg sd env cache cid ref loc cp onm).1 ∧
    captures (generate_group_shot cfg sd env cache cids ref loc cp onm).1 ∧
    captures (generate_scene cfg sd env cache scene_text cids reference_req loc onm addn).1 ∧
    captures (generate_cover cfg sd env cache bid reference_req cp onm).1 ∧
    (get_character cfg cid = none →
       (generate_hero_shot cfg sd env cache cid ref loc cp onm).1
         = { success := false, error := some (("Character not found: ") ++ cid) }) ∧
    (cids.filterMap (get_character cfg) = [] →
       (generate_group_shot cfg sd env cache cids ref loc cp onm).1
         = { success := false, error := some ("No valid characters found") }) ∧
    (get_book cfg bid = none →
       (generate_cover cfg sd env cache bid reference_req cp onm).1
         = { success := false, error := some (("Book not found: ") ++ bid) }) := by
  refine ⟨hero_captures cfg sd env cache cid ref loc cp onm,
          group_captures cfg sd env cache cids ref loc cp onm,
          scene_captures cfg sd env cache scene_text cids reference_req loc onm addn,
          cover_captures cfg sd env cache bid reference_req cp onm, ?_, ?_, ?_⟩
  · intro h
    unfold generate_hero_shot
    rw [h]
  · intro h
    unfold generate_group_shot
    rw [h]
    rfl
  · intro h
    unfold generate_cover
    rw [h]

/-- Decomposition of brace-freeness over a cons cell. -/
theorem braceFreeB_cons (c : Char) (cs : List Char) :
    braceFreeB (c :: cs) = true ↔
      (c ≠ lbrace ∧ c ≠ rbrace) ∧ braceFreeB cs = true := by
  simp [braceFreeB, List.all_cons, Bool.and_eq_true, bne_iff_ne, and_assoc]

/-- A matched lead leaves a remainder no longer than the input. -/
theorem dropLead_length : ∀ (p cs rest : List Char),
    dropLead p cs = some rest → rest.length ≤ cs.length := by
  intro p
  induction p with
  | nil =>
    intro cs rest h
    simp [dropLead] at h
    simp [h]
  | cons p ps ih =>
    intro cs rest h
    cases cs with
    | nil => simp [dropLead] at h
    | cons c cs2 =>
      simp only [dropLead] at h
      by_cases hpc : p = c
      · rw [if_pos hpc] at h
        have h2 := ih cs2 rest h
        simp only [List.length_cons]
        omega
      · rw [if_neg hpc] at h
        cases h

/-- A list is a lead of itself followed by anything. -/
theorem dropLead_append : ∀ (p rest : List Char),
    dropLead p (p ++ rest) = some rest := by
  intro p rest
  induction p with
  | nil => rfl
  | cons c ps ih => simp [dropLead, ih]

/-- The marker replacement is fuel-irrelevant once fuel covers the input
length. -/
theorem pyRepAux_congr (key v : List Char) :
    ∀ (f1 : Nat) (cs : List Char) (f2 : Nat), cs.length ≤ f1 → cs.length ≤ f2 →
      pyRepAux key v f1 cs = pyRepAux key v f2 cs := by
  intro f1
  induction f1 with
  | zero =>
    intro cs f2 h1 h2
    cases cs with
    | nil => cases f2 with | zero => rfl | succ g => rfl
    | cons c cs2 => simp at h1
  | succ f ih =>
    intro cs f2 h1 h2
    cases cs with
    | nil => cases f2 with | zero => rfl | succ g => rfl
    | cons c cs2 =>
      cases f2 with
      | zero => simp at h2
      | succ g =>
        have hl1 : cs2.length ≤ f := by simp only [List.length_cons] at h1; omega
        have hl2 : cs2.length ≤ g := by simp only [List.length_cons] at h2; omega
        simp only [pyRepAux]
        by_cases hc : c = lbrace
        · rw [if_pos hc, if_pos hc]
          cases hd : dropLead (key ++ [rbrace]) cs2 with
          | some rest =>
            have hr := dropLead_length _ _ _ hd
            dsimp only
            rw [ih rest g (le_trans hr hl1) (le_trans hr hl2)]
          | none =>
            dsimp only
            rw [ih cs2 g hl1 hl2]
        · rw [if_neg hc, if_neg hc]
          rw [ih cs2 g hl1 hl2]

/-- One scanning step over a non-brace character. -/
theorem pyRepM_cons_nb (key v : List Char) (c : Char) (cs : List Char)
    (hc : ¬ c = lbrace) :
    pyRepM key v (c :: cs) = c :: pyRepM key v cs := by
  simp [pyRepM, pyRepAux, hc]

/-- One scanning step over an open brace whose tail does not continue the
marker. -/
theorem pyRepM_cons_miss (key v cs : List Char)
    (hd : dropLead (key ++ [rbrace]) cs = none) :
    pyRepM key v (lbrace :: cs) = lbrace :: pyRepM key v cs := by
  simp [pyRepM, pyRepAux, hd]

/-- One replacement step at an occurrence of the marker. -/
theorem pyRepM_cons_hit (key v cs rest : List Char)
    (hd : dropLead (key ++ [rbrace]) cs = some rest) :
    pyRepM key v (lbrace :: cs) = v ++ pyRepM key v rest := by
  have hr := dropLead_length _ _ _ hd
  simp only [pyRepM, List.length_cons, pyRepAux, if_pos rfl, hd]
  rw [pyRepAux_congr key v cs.length rest rest.length hr (Nat.le_refl _)]
  simp

/-- Scanning passes over brace-free text unchanged. -/
theorem walk_free (key v : List Char) :
    ∀ (s : List Char), braceFreeB s = true →
      ∀ rest, pyRepM key v (s ++ rest) = s ++ pyRepM key v rest := by
  intro s
  induction s with
  | nil => intro _ rest; rfl
  | cons c s2 ih =>
    intro h rest
    obtain ⟨⟨hc, _⟩, hs2⟩ := (braceFreeB_cons c s2).mp h
    calc pyRepM key v ((c :: s2) ++ rest)
        = c :: pyRepM key v (s2 ++ rest) := pyRepM_cons_nb key v c _ hc
      _ = c :: (s2 ++ pyRepM key v rest) := by rw [ih hs2 rest]
      _ = (c :: s2) ++ pyRepM key v rest := rfl

/-- A full marker match against the text of another marker forces the two
keys to be equal (both brace-free). -/
theorem marker_lead_eq : ∀ (k n : List Char), braceFreeB k = true →
    braceFreeB n = true → ∀ (rest rest2 : List Char),
      dropLead (k ++ [rbrace]) (n ++ rbrace :: rest) = some rest2 →
      k = n ∧ rest2 = rest := by
  intro k
  induction k with
  | nil =>
    intro n hk hn rest rest2 h
    cases n with
    | nil =>
      simp [dropLead] at h
      exact ⟨rfl, h.symm⟩
    | cons a n2 =>
      obtain ⟨⟨_, ha⟩, _⟩ := (braceFreeB_cons a n2).mp hn
      simp only [List.nil_append, List.cons_append, dropLead] at h
      rw [if_neg (fun hh => ha hh.symm)] at h
      cases h
  | cons b k2 ih =>
    intro n hk hn rest rest2 h
    obtain ⟨⟨hb, _⟩, hk2⟩ := (braceFreeB_cons b k2).mp hk
    cases n with
    | nil =>
      simp only [List.cons_append, List.nil_append, dropLead] at h
      rw [if_neg ?hne] at h
      case hne =>
        intro hh
        obtain ⟨⟨_, hb2⟩, _⟩ := (braceFreeB_cons b k2).mp hk
        exact hb2 hh
      cases h
    | cons a n2 =>
      obtain ⟨_, hn2⟩ := (braceFreeB_cons a n2).mp hn
      simp only [List.cons_append, dropLead] at h
      by_cases hba : b = a
      · rw [if_pos hba] at h
        obtain ⟨hkn, hr⟩ := ih n2 hk2 hn2 rest rest2 h
        exact ⟨by rw [hba, hkn], hr⟩
      · rw [if_neg hba] at h
        cases h

/-- Scanning replaces an occurrence of the scanned key's own marker. -/
theorem walk_marker_hit (key : String) (v rest : List Char) :
    pyRepM key.data v (markerChars key ++ rest)
      = v ++ pyRepM key.data v rest := by
  have heq : markerChars key ++ rest
      = lbrace :: ((key.data ++ [rbrace]) ++ rest) := rfl
  rw [heq]
  exact pyRepM_cons_hit _ _ _ _ (dropLead_append _ _)

/-- Scanning passes over the intact marker of a different name. -/
theorem walk_marker_miss (key n : String) (v : List Char)
    (hk : braceFreeB key.data = true) (hn : braceFreeB n.data = true)
    (hne : ¬ key = n) (rest : List Char) :
    pyRepM key.data v (markerChars n ++ rest)
      = markerChars n ++ pyRepM key.data v rest := by
  have heq : markerChars n ++ rest = lbrace :: (n.data ++ rbrace :: rest) := by
    simp [markerChars, List.append_assoc]
  rw [heq]
  have hd : dropLead (key.data ++ [rbrace]) (n.data ++ rbrace :: rest) = none := by
    cases h : dropLead (key.data ++ [rbrace]) (n.data ++ rbrace :: rest) with
    | none => rfl
    | some r2 =>
      obtain ⟨hkn, _⟩ := marker_lead_eq key.data n.data hk hn rest r2 h
      have : key = n := by
        cases key
        cases n
        exact congrArg String.mk hkn
      exact absurd this hne
  rw [pyRepM_cons_miss _ _ _ hd]
  rw [walk_free key.data v n.data hn (rbrace :: rest)]
  rw [pyRepM_cons_nb _ _ rbrace rest (by decide)]
  simp [markerChars, List.append_assoc]

/-- A successful association lookup finds a member of the list. -/
theorem alookup_mem {α : Type} :
    ∀ (l : List (String × α)) (k : String) (v : α),
      alookup l k = some v → (k, v) ∈ l := by
  intro l
  induction l with
  | nil => intro k v h; cases h
  | cons kv rest ih =>
    intro k v h
    simp only [alookup] at h
    by_cases hk : kv.1 = k
    · rw [if_pos hk] at h
      subst hk
      cases h
      exact List.mem_cons_self _ _
    · rw [if_neg hk] at h
      exact List.mem_cons_of_mem _ (ih k v h)

/-- Association lookup through an append, found on the left. -/
theorem alookup_append_some {α : Type} :
    ∀ (l1 l2 : List (String × α)) (k : String) (v : α),
      alookup l1 k = some v → alookup (l1 ++ l2) k = some v := by
  intro l1
  induction l1 with
  | nil => intro l2 k v h; cases h
  | cons kv rest ih =>
    intro l2 k v h
    simp only [alookup] at h
    simp only [List.cons_append, alookup]
    by_cases hk : kv.1 = k
    · rw [if_pos hk] at h ⊢
      exact h
    · rw [if_neg hk] at h ⊢
      exact ih l2 k v h

/-- Association lookup through an append, absent on the left. -/
theorem alookup_append_none {α : Type} :
    ∀ (l1 l2 : List (String × α)) (k : String),
      alookup l1 k = none → alookup (l1 ++ l2) k = alookup l2 k := by
  intro l1
  induction l1 with
  | nil => intro l2 k _; rfl
  | cons kv rest ih =>
    intro l2 k h
    simp only [alookup] at h
    simp only [List.cons_append, alookup]
    by_cases hk : kv.1 = k
    · rw [if_pos hk] at h
      cases h
    · rw [if_neg hk] at h ⊢
      exact ih l2 k h

/-- The rendered text of an unmatched placeholder is its marker. -/
theorem substTok_data_none (vars : List (String × String)) (n : String)
    (h : alookup vars n = none) :
    (substTok vars (FmtTok.ph n)).data = markerChars n := by
  simp only [substTok, h]
  rfl

/-- One fallback pass: replacing one brace-free key's marker over the
partially substituted rendering (all earlier values brace-free, tokens
well formed) substitutes exactly that key's unmatched placeholders. -/
theorem pyRep_onePass (key v : String) (hk : braceFreeB key.data = true)
    (vars : List (String × String))
    (hvals : ∀ kv ∈ vars, braceFreeB kv.2.data = true) :
    ∀ ts, tokensWF ts = true →
      pyRepM key.data v.data (renderSubstL vars ts)
        = renderSubstL (vars ++ [(key, v)]) ts := by
  intro ts
  induction ts with
  | nil => intro _; rfl
  | cons t rest ih =>
    intro hwf
    cases t with
    | lit s =>
      simp only [tokensWF, List.all_cons, Bool.and_eq_true] at hwf
      obtain ⟨hfree, hrest0⟩ := hwf
      have hrest : tokensWF rest = true := hrest0
      have hstep : renderSubstL vars (FmtTok.lit s :: rest)
          = s.data ++ renderSubstL vars rest := rfl
      rw [hstep, walk_free key.data v.data s.data hfree, ih hrest]
      rfl
    | ph n =>
      simp only [tokensWF, List.all_cons, Bool.and_eq_true] at hwf
      obtain ⟨htok, hrest0⟩ := hwf
      have hrest : tokensWF rest = true := hrest0
      cases h : alookup vars n with
      | some w =>
        have hwfree : braceFreeB w.data = true :=
          hvals (n, w) (alookup_mem vars n w h)
        have hstep : renderSubstL vars (FmtTok.ph n :: rest)
            = w.data ++ renderSubstL vars rest := by
          simp [renderSubstL, substTok, h]
        rw [hstep, walk_free key.data v.data w.data hwfree, ih hrest]
        have h2 : alookup (vars ++ [(key, v)]) n = some w :=
          alookup_append_some vars _ n w h
        simp [renderSubstL, substTok, h2]
      | none =>
        have hstep : renderSubstL vars (FmtTok.ph n :: rest)
            = markerChars n ++ renderSubstL vars rest := by
          simp [renderSubstL, substTok_data_none vars n h]
        by_cases hn : key = n
        · subst hn
          rw [hstep, walk_marker_hit key v.data, ih hrest]
          have h2 : alookup (vars ++ [(key, v)]) key = some v := by
            rw [alookup_append_none vars _ key h]
            simp [alookup]
          simp [renderSubstL, substTok, h2]
        · have hnb : braceFreeB n.data = true := htok.1
          rw [hstep, walk_marker_miss key n v.data hk hnb hn, ih hrest]
          have h2 : alookup (vars ++ [(key, v)]) n = none := by
            rw [alookup_append_none vars _ n h]
            simp [alookup, hn]
          simp [renderSubstL, substTok_data_none _ _ h2]

/-- The whole sequential fallback fold over the partial rendering of the
already-processed keys equals the rendering with the remaining keys also
processed, when every key and value is brace-free. -/
theorem fold_renderSubst (ts : List FmtTok) (hts : tokensWF ts = true) :
    ∀ (vs acc : List (String × String)),
      (∀ kv ∈ acc, braceFreeB kv.2.data = true) →
      (∀ kv ∈ vs, braceFreeB kv.1.data = true ∧ braceFreeB kv.2.data = true) →
      List.foldl (fun cs kv => pyRepM kv.1.data kv.2.data cs)
          (renderSubstL acc ts) vs
        = renderSubstL (acc ++ vs) ts := by
  intro vs
  induction vs with
  | nil => intro acc _ _; simp
  | cons kv vs2 ih =>
    intro acc hacc hvs
    obtain ⟨k, v⟩ := kv
    have hkv := hvs (k, v) (by simp)
    simp only [List.foldl_cons]
    rw [pyRep_onePass k v hkv.1 acc hacc ts hts]
    rw [ih (acc ++ [(k, v)]) ?hacc2 ?hvs2]
    · simp
    case hacc2 =>
      intro kv2 h2
      rcases List.mem_append.mp h2 with h3 | h3
      · exact hacc kv2 h3
      · simp at h3
        rw [h3]
        exact hkv.2
    case hvs2 =>
      intro kv2 h2
      exact hvs kv2 (by simp [h2])

/-- The string-level fallback is the character-level fold. -/
theorem fallbackReplace_data : ∀ (vs : List (String × String)) (t : String),
    fallbackReplace vs t
      = String.mk (List.foldl (fun cs kv => pyRepM kv.1.data kv.2.data cs)
          t.data vs) := by
  intro vs
  induction vs with
  | nil => intro t; rfl
  | cons kv vs2 ih =>
    intro t
    simp only [fallbackReplace, List.foldl_cons] at *
    exact ih (pyReplaceMarker t kv.1 kv.2)

/-- The string-level rendering is the character-level rendering. -/
theorem renderSubst_mk (vars : List (String × String)) :
    ∀ ts, renderSubst vars ts = String.mk (renderSubstL vars ts) := by
  intro ts
  induction ts with
  | nil => rfl
  | cons t rest ih =>
    have hstep : renderSubst vars (t :: rest)
        = substTok vars t ++ renderSubst vars rest := rfl
    rw [hstep, ih]
    rfl

/-- The sequential fallback agrees with one-pass partial substitution on
the interference-free domain: a template whose text is its own token
rendering (no escaped braces, well formed), with brace-free literal text
and placeholder names, called with brace-free keys and values. -/
theorem fallback_eq_renderSubst (t : String) (vars2 : List (String × String))
    (hraw : t.data = rawOfToks (parseFmt t))
    (hwf : tokensWF (parseFmt t) = true)
    (hkeys : ∀ kv ∈ vars2, braceFreeB kv.1.data = true)
    (hvals : ∀ kv ∈ vars2, braceFreeB kv.2.data = true) :
    fallbackReplace vars2 t = renderSubst vars2 (parseFmt t) := by
  rw [fallbackReplace_data, renderSubst_mk]
  rw [hraw]
  have h0 := fold_renderSubst (parseFmt t) hwf vars2 []
    (by intro kv h; cases h) (fun kv h => ⟨hkeys kv h, hvals kv h⟩)
  simp only [List.nil_append] at h0
  rw [show rawOfToks (parseFmt t) = renderSubstL [] (parseFmt t) from rfl, h0]

/-- Claim C4 counterexample: in cfg_c4 the template holds the
placeholders a and c; calling build_prompt with a mapped to the literal
marker of b and b mapped to B reaches the KeyError fallback (c is
unmatched), whose second replace pass rewrites the marker the first pass
substituted: the code returns B-space-marker-of-c, not the one-pass
partial substitution marker-of-b-space-marker-of-c the claim describes,
so the two differ at this input. -/
theorem claim_C4_counterexample :
    build_prompt cfg_c4 ("t") [(("a"), ("\x7bb\x7d")), (("b"), ("B"))]
        = ("B \x7bc\x7d") ∧
    renderSubst (with_style cfg_c4 [(("a"), ("\x7bb\x7d")), (("b"), ("B"))])
        (parseFmt (get_prompt_template cfg_c4 ("t")))
        = ("\x7bb\x7d \x7bc\x7d") ∧
    ¬ (build_prompt cfg_c4 ("t") [(("a"), ("\x7bb\x7d")), (("b"), ("B"))]
        = renderSubst (with_style cfg_c4 [(("a"), ("\x7bb\x7d")), (("b"), ("B"))])
            (parseFmt (get_prompt_template cfg_c4 ("t")))) := by
  refine ⟨by decide, by decide, by decide⟩

/-- Claim C4 (amended): for templates whose text consists of brace-free
literal segments and simple named placeholders (the form every template
of the repository's configuration takes), called with brace-free
variable names and values, build_prompt never raises for missing
variables and returns exactly the partial-substitution rendering under
the caller variables augmented (when style_prompt was not supplied) with
the active style's fragment: each matched placeholder replaced by its
value and each unmatched marker left untouched, as the substTok
conjuncts state.  Outside this domain the fallback's sequential
find/replace rewrites markers contained in earlier-substituted values,
as the counterexample shows. -/
theorem claim_C4_amended (cfg : ConfigManager) (name : String)
    (vars : List (String × String))
    (hne : (get_prompt_template cfg name).isEmpty = false)
    (hraw : (get_prompt_template cfg name).data
      = rawOfToks (parseFmt (get_prompt_template cfg name)))
    (hwf : tokensWF (parseFmt (get_prompt_template cfg name)) = true)
    (hkeys : (with_style cfg vars).all (fun kv => braceFreeB kv.1.data) = true)
    (hvals : (with_style cfg vars).all (fun kv => braceFreeB kv.2.data) = true) :
    build_prompt cfg name vars
      = renderSubst (with_style cfg vars) (parseFmt (get_prompt_template cfg name)) ∧
    (∀ n v, alookup (with_style cfg vars) n = some v →
       substTok (with_style cfg vars) (FmtTok.ph n) = v) ∧
    (∀ n, alookup (with_style cfg vars) n = none →
       substTok (with_style cfg vars) (FmtTok.ph n) = ("\x7b") ++ n ++ ("\x7d")) := by
  refine ⟨?_, ?_, ?_⟩
  · unfold build_prompt
    dsimp only
    rw [hne]
    simp only [Bool.false_eq_true, if_false]
    cases h : formatAll (with_style cfg vars) (parseFmt (get_prompt_template cfg name)) with
    | some s => rw [formatAll_some _ _ _ h]
    | none =>
      refine fallback_eq_renderSubst _ _ hraw hwf ?_ ?_
      · intro kv hkv
        have := List.all_eq_true.mp hkeys kv hkv
        simpa using this
      · intro kv hkv
        have := List.all_eq_true.mp hvals kv hkv
        simpa using this
  · intro n v h
    simp [substTok, h]
  · intro n h
    simp [substTok, h]

/-- Claim C4 witness: in test_cfg, the greet template holds placeholders
a and b; supplying only a yields the rendering with X substituted for a
and the literal b marker preserved, concretely the text X-and-marker-of-b
(every hypothesis of the amended claim holds at this input). -/
theorem claim_C4_witness :
    (get_prompt_template test_cfg ("greet")).isEmpty = false ∧
    build_prompt test_cfg ("greet") [(("a"), ("X"))]
      = renderSubst (with_style test_cfg [(("a"), ("X"))])
          (parseFmt (get_prompt_template test_cfg ("greet"))) ∧
    build_prompt test_cfg ("greet") [(("a"), ("X"))] = ("X and \x7bb\x7d") :=
  ⟨by decide,
   (claim_C4_amended test_cfg ("greet") [(("a"), ("X"))] (by decide) (by decide)
     (by decide) (by decide) (by decide)).1,
   by decide⟩

/-- Claim C6: the page-range filter used by book generation keeps exactly
the scenes whose page lies inclusively between both bounds (absent page
fields default to 0); book_filtered_scenes with a supplied range is that
filter on the book's scenes; and on scenes with pages 1,2,3,5,8 the range
(2,5) keeps exactly the pages 2, 3, 5. -/
theorem claim_C6 (start stop : Rat) (scenes : List JValue) :
    (∀ s, s ∈ filterScenes start stop scenes ↔
       (s ∈ scenes ∧ start ≤ pageOf s 0 ∧ pageOf s 0 ≤ stop)) ∧
    (∀ b : Book, book_filtered_scenes b (some (start, stop))
       = filterScenes start stop b.scenes) ∧
    (filterScenes 2 5 pages_example).map (fun s => pageOf s 0) = [2, 3, 5] := by
  refine ⟨?_, fun b => rfl, by decide⟩
  intro s
  simp [filterScenes, List.mem_filter, decide_eq_true_eq, and_assoc]

/-- Claim C7: set_active_style with an id naming an existing preset
returns true and repoints the active style to that id, leaving every
preset entry and every typed collection unchanged; with an unknown id it
returns false and leaves the whole state untouched. -/
theorem claim_C7 (cfg : ConfigManager) (sid : String) :
    ((alookup cfg.style_presets sid).isSome = true →
       (set_active_style cfg sid).1 = true ∧
       active_style (set_active_style cfg sid).2 = sid ∧
       (set_active_style cfg sid).2.style_presets = cfg.style_presets ∧
       (set_active_style cfg sid).2.characters = cfg.characters ∧
       (set_active_style cfg sid).2.locations = cfg.locations ∧
       (set_active_style cfg sid).2.books = cfg.books ∧
       (set_active_style cfg sid).2.prompt_templates = cfg.prompt_templates) ∧
    ((alookup cfg.style_presets sid).isSome = false →
       set_active_style cfg sid = (false, cfg)) := by
  constructor
  · intro h
    have hset : set_active_style cfg sid
        = (true, { cfg with raw := setKey cfg.raw ("active_style") (JValue.str sid) }) := by
      simp [set_active_style, h]
    rw [hset]
    refine ⟨rfl, ?_, rfl, rfl, rfl, rfl, rfl⟩
    simp [active_style, alookup_setKey, jstrD]
  · intro h
    simp [set_active_style, h]

/-- Claim C8: loading a configuration document, saving it, and loading
the saved document again yields identical typed contents: the character,
location, book, style-preset and prompt-template collections all agree
with the first load (save serializes the raw state, and JSON
serialization round-trips the document). -/
theorem claim_C8 (doc : List (String × JValue)) :
    (config_load (config_save (config_load doc))).characters
        = (config_load doc).characters ∧
    (config_load (config_save (config_load doc))).locations
        = (config_load doc).locations ∧
    (config_load (config_save (config_load doc))).books
        = (config_load doc).books ∧
    (config_load (config_save (config_load doc))).style_presets
        = (config_load doc).style_presets ∧
    (config_load (config_save (config_load doc))).prompt_templates
        = (config_load doc).prompt_templates :=
  ⟨rfl, rfl, rfl, rfl, rfl⟩

/-- Claim C10: build_prompt with a template name that is not present in
the template mapping returns the empty string, for every variable
assignment (get_prompt_template defaults to the empty string and
build_prompt returns it unchanged on the falsy-template branch). -/
theorem claim_C10 (cfg : ConfigManager) (name : String)
    (vars : List (String × String))
    (h : alookup cfg.prompt_templates name = none) :
    build_prompt cfg name vars = ("") := by
  unfold build_prompt get_prompt_template
  rw [h]
  rfl

/-- Claim C10 witness: test_cfg has no template named missing_template,
and build_prompt on it returns the empty string. -/
theorem claim_C10_witness :
    alookup test_cfg.prompt_templates ("missing_template") = none ∧
    build_prompt test_cfg ("missing_template") [(("a"), ("X"))] = ("") :=
  ⟨by decide, claim_C10 test_cfg ("missing_template") [(("a"), ("X"))] (by decide)⟩

/-- Claim C2: for a known book with at least one configured scene,
generate_book returns one result per page-range-filtered scene plus one
when the cover is included, ordered cover first (when included) then the
scenes in their original order; the length equation holds for every
environment, so one item's failure never removes any later item from the
returned list. -/
theorem claim_C2 (cfg : ConfigManager) (sd : Bool) (env : GenEnv) (cache : Cache)
    (bid ref : String) (inc : Bool) (pr : Option (Rat × Rat)) (book : Book)
    (hb : get_book cfg bid = some book) (hs : book.scenes.isEmpty = false) :
    (generate_book cfg sd env cache bid ref inc pr).1.length
        = (book_filtered_scenes book pr).length + (if inc then 1 else 0) ∧
    (generate_book cfg sd env cache bid ref inc pr).1
        = (if inc then
             [(generate_cover cfg sd env cache bid ref none
                 (some (path_get cfg ("books_output") ("./output/books")
                   ++ ("/") ++ bid ++ ("/cover")))).1]
           else [])
          ++ (book_scene_loop cfg sd env (rate_delay cfg)
                (book.featured_character :: book.supporting_characters)
                book.primary_location
                (path_get cfg ("books_output") ("./output/books") ++ ("/") ++ bid)
                ref
                (if inc then
                   (generate_cover cfg sd env cache bid ref none
                     (some (path_get cfg ("books_output") ("./output/books")
                       ++ ("/") ++ bid ++ ("/cover")))).2
                 else cache)
                (book_filtered_scenes book pr) 1).1 := by
  have hstruct : (generate_book cfg sd env cache bid ref inc pr).1
      = (if inc then
           [(generate_cover cfg sd env cache bid ref none
               (some (path_get cfg ("books_output") ("./output/books")
                 ++ ("/") ++ bid ++ ("/cover")))).1]
         else [])
        ++ (book_scene_loop cfg sd env (rate_delay cfg)
              (book.featured_character :: book.supporting_characters)
              book.primary_location
              (path_get cfg ("books_output") ("./output/books") ++ ("/") ++ bid)
              ref
              (if inc then
                 (generate_cover cfg sd env cache bid ref none
                   (some (path_get cfg ("books_output") ("./output/books")
                     ++ ("/") ++ bid ++ ("/cover")))).2
               else cache)
              (book_filtered_scenes book pr) 1).1 := by
    unfold generate_book
    rw [hb]
    dsimp only
    rw [hs]
    cases inc with
    | true => simp
    | false => simp
  refine ⟨?_, hstruct⟩
  rw [hstruct]
  cases inc with
  | true =>
    simp [book_scene_loop_length]
  | false =>
    simp [book_scene_loop_length]

/-- Claim C2 witness: the spec's end-to-end scenario on cfg_book, whose
synthesis stub fails exactly on the second scene: the result list has
four entries (cover plus three scenes) in order, exactly the second
scene's entry failed, and three entries succeeded. -/
theorem claim_C2_witness :
    get_book cfg_book ("b1") = some book_b1 ∧
    book_b1.scenes.isEmpty = false ∧
    (generate_book cfg_book false env_book empty_cache ("b1") ("https://ref/r.jpg")
        true none).1.length = 4 ∧
    (generate_book cfg_book false env_book empty_cache ("b1") ("https://ref/r.jpg")
        true none).1.map (fun r => r.success) = [true, true, false, true] ∧
    ((generate_book cfg_book false env_book empty_cache ("b1") ("https://ref/r.jpg")
        true none).1.filter (fun r => r.success)).length = 3 := by
  refine ⟨rfl, rfl, ?_, by decide, by decide⟩
  have h := (claim_C2 cfg_book false env_book empty_cache ("b1") ("https://ref/r.jpg")
    true none book_b1 rfl rfl).1
  rw [h]
  decide

/-- Claim C3: resolving a reference that already starts with the URL
scheme prefix returns it unchanged with no upload call; resolving an
absent local path fails with the missing-reference error; resolving the
same existing local path twice without force performs exactly one upload
call in total (the second call returns the cached handle, leaves the
cache unchanged and performs zero upload calls), and passing force
performs one further upload call. -/
theorem claim_C3 (env : GenEnv) (cache : Cache) (p q r u : String)
    (hq : startsWithHttp q = true)
    (hp : startsWithHttp p = false)
    (hcp : cache p = none)
    (hex : env.fileExists p = true)
    (hup : env.upload p = Except.ok u)
    (hr1 : startsWithHttp r = false)
    (hcr : cache r = none)
    (hr2 : env.fileExists r = false) :
    upload_image env cache q false = Except.ok (q, cache, 0) ∧
    upload_image env cache q true = Except.ok (q, cache, 0) ∧
    upload_image env cache r false = Except.error (("Image not found: ") ++ r) ∧
    upload_image env cache p false = Except.ok (u, cacheUpd cache p u, 1) ∧
    upload_image env (cacheUpd cache p u) p false
        = Except.ok (u, cacheUpd cache p u, 0) ∧
    upload_image env (cacheUpd cache p u) p true
        = Except.ok (u, cacheUpd (cacheUpd cache p u) p u, 1) := by
  refine ⟨?_, ?_, ?_, ?_, ?_, ?_⟩
  · simp [upload_image, hq]
  · simp [upload_image, hq]
  · simp [upload_image, hr1, hcr, hr2]
  · simp [upload_image, hp, hcp, hex, hup]
  · simp [upload_image, hp, cacheUpd]
  · simp [upload_image, hp, hex, hup]

/-- Claim C3 witness: in env_up with an empty cache, the URL reference
passes through unchanged, the missing local path fails, and resolving
local.jpg twice performs one upload then zero, while force performs one
more. -/
theorem claim_C3_witness :
    startsWithHttp ("https://remote/x.jpg") = true ∧
    upload_image env_up empty_cache ("https://remote/x.jpg") false
        = Except.ok (("https://remote/x.jpg"), empty_cache, 0) ∧
    upload_image env_up empty_cache ("missing.jpg") false
        = Except.error ("Image not found: missing.jpg") ∧
    upload_image env_up empty_cache ("local.jpg") false
        = Except.ok (("https://u.example/1.jpg"),
            cacheUpd empty_cache ("local.jpg") ("https://u.example/1.jpg"), 1) ∧
    upload_image env_up (cacheUpd empty_cache ("local.jpg") ("https://u.example/1.jpg"))
        ("local.jpg") false
        = Except.ok (("https://u.example/1.jpg"),
            cacheUpd empty_cache ("local.jpg") ("https://u.example/1.jpg"), 0) := by
  have h := claim_C3 env_up empty_cache ("local.jpg") ("https://remote/x.jpg")
    ("missing.jpg") ("https://u.example/1.jpg") (by decide) (by decide) rfl
    (by decide) rfl (by decide) rfl rfl
  exact ⟨by decide, h.1, h.2.2.1, h.2.2.2.1, h.2.2.2.2.1⟩

/-- Claim C5 counterexample: in cfg_c5 with includeCover and a page range
that filters out every scene, the batch consists of the single cover item
and yet the trace ends with the configured sleep: the delay is not
skipped after the final item of this batch. -/
theorem claim_C5_counterexample :
    (generate_book cfg_c5 false env_ok empty_cache ("b1") ("https://r") true
        (some (5, 9))).1.length = 1 ∧
    (generate_book cfg_c5 false env_ok empty_cache ("b1") ("https://r") true
        (some (5, 9))).2.2 = [Ev.gen, Ev.sleep 1] := by
  decide

/-- Claim C5 (amended): the all-hero-shots batch inserts the configured
delay between consecutive items and never after the last; book
generation applies the delay after the cover unconditionally and between
consecutive scenes but not after the last scene, so its trace is the
cover block followed by the interspersed scene block — whenever at least
one scene survives the page filter this is exactly the
strictly-between-items pattern, while a cover-only batch (the filter
left zero scenes) ends with a delay after its final item. -/
theorem claim_C5_amended (cfg : ConfigManager) (sd : Bool) (env : GenEnv)
    (cache : Cache) (ref : Option String) (cids : Option (List String))
    (bid bref : String) (inc : Bool) (pr : Option (Rat × Rat)) (book : Book)
    (hb : get_book cfg bid = some book) (hs : book.scenes.isEmpty = false) :
    (generate_all_hero_shots cfg sd env cache ref cids).2.2
        = List.intersperse (Ev.sleep (rate_delay cfg))
            (List.replicate (hero_target_ids cfg cids).length Ev.gen) ∧
    (generate_book cfg sd env cache bid bref inc pr).2.2
        = (if inc then [Ev.gen, Ev.sleep (rate_delay cfg)] else [])
          ++ List.intersperse (Ev.sleep (rate_delay cfg))
               (List.replicate (book_filtered_scenes book pr).length Ev.gen) ∧
    ((book_filtered_scenes book pr).isEmpty = false → inc = true →
       (generate_book cfg sd env cache bid bref inc pr).2.2
         = List.intersperse (Ev.sleep (rate_delay cfg))
             (List.replicate ((book_filtered_scenes book pr).length + 1) Ev.gen)) := by
  have hbook : (generate_book cfg sd env cache bid bref inc pr).2.2
      = (if inc then [Ev.gen, Ev.sleep (rate_delay cfg)] else [])
        ++ List.intersperse (Ev.sleep (rate_delay cfg))
             (List.replicate (book_filtered_scenes book pr).length Ev.gen) := by
    unfold generate_book
    rw [hb]
    dsimp only
    rw [hs]
    cases inc with
    | true => simp [book_scene_loop_trace]
    | false => simp [book_scene_loop_trace]
  refine ⟨?_, hbook, ?_⟩
  · unfold generate_all_hero_shots
    exact hero_batch_loop_trace cfg sd env (rate_delay cfg) ref
      (hero_target_ids cfg cids) cache
  · intro hne hinc
    rw [hbook, hinc]
    cases hflt : book_filtered_scenes book pr with
    | nil => rw [hflt] at hne; simp at hne
    | cons s ss => simp [List.replicate, List.intersperse]

/-- Claim C5 witness: on the three-scene book of cfg_book with the cover
included and no page filter, the trace is four generations with the
configured delay (the default 1) strictly between consecutive items and
no delay after the last. -/
theorem claim_C5_witness :
    get_book cfg_book ("b1") = some book_b1 ∧
    book_b1.scenes.isEmpty = false ∧
    (generate_book cfg_book false env_book empty_cache ("b1") ("https://ref/r.jpg")
        true none).2.2
      = [Ev.gen, Ev.sleep 1, Ev.gen, Ev.sleep 1, Ev.gen, Ev.sleep 1, Ev.gen] := by
  refine ⟨rfl, rfl, ?_⟩
  have h := (claim_C5_amended cfg_book false env_book empty_cache none none ("b1")
    ("https://ref/r.jpg") true none book_b1 rfl rfl).2.2 (by decide) rfl
  rw [h]
  decide

/-- Claim C9: a hero-shot request for a known character, under a stubbed
synthesis call that always returns one fixed remote handle (the spec's
stub) and with no reference and persistence off, returns the successful
result whose metadata carries the character id, name and operation type,
whose cost is the configured per-image cost, and whose prompt is built
from the hero_shot template over the character's name and description,
the neutral background and the active style's prompt fragment. -/
theorem claim_C9 (cfg : ConfigManager) (env : GenEnv) (cache : Cache)
    (cid : String) (ch : Character) (url : String) (onm : Option String)
    (hch : get_character cfg cid = some ch)
    (hsynth : ∀ p rimg, env.synth p rimg = Except.ok url) :
    (generate_hero_shot cfg false env cache cid none none none onm).1
      = { success := true, image_url := some url,
          prompt_used := build_prompt cfg ("hero_shot")
            [(("character_name"), ch.name),
             (("character_description"), ch.description),
             (("location"), ("soft, neutral background")),
             (("style_prompt"), active_style_prompt cfg)],
          cost := cost_per_image cfg,
          metadata := [(("character_id"), JValue.str cid),
                       (("character_name"), JValue.str ch.name),
                       (("type"), JValue.str ("hero_shot"))] } := by
  unfold generate_hero_shot
  rw [hch]
  simp [tryGenerate, strOpt, hsynth, finishResult]

/-- Claim C9 witness: the spec's barnaby_bunny scenario on test_cfg with
the always-succeeding stub env_ok; additionally the built prompt is
literally the character name followed by the pixar style fragment. -/
theorem claim_C9_witness :
    get_character test_cfg ("barnaby_bunny") = some barnaby_char ∧
    (generate_hero_shot test_cfg false env_ok empty_cache ("barnaby_bunny")
        none none none none).1
      = { success := true, image_url := some ("https://img.example/out.jpg"),
          prompt_used := build_prompt test_cfg ("hero_shot")
            [(("character_name"), barnaby_char.name),
             (("character_description"), barnaby_char.description),
             (("location"), ("soft, neutral background")),
             (("style_prompt"), active_style_prompt test_cfg)],
          cost := cost_per_image test_cfg,
          metadata := [(("character_id"), JValue.str ("barnaby_bunny")),
                       (("character_name"), JValue.str (("Barnaby"))),
                       (("type"), JValue.str ("hero_shot"))] } ∧
    build_prompt test_cfg ("hero_shot")
        [(("character_name"), barnaby_char.name),
         (("character_description"), barnaby_char.description),
         (("location"), ("soft, neutral background")),
         (("style_prompt"), active_style_prompt test_cfg)]
      = ("Barnaby in pixar style 3D render") ∧
    cost_per_image test_cfg = (4 : Rat) / 100 :=
  ⟨rfl,
   claim_C9 test_cfg env_ok empty_cache ("barnaby_bunny") barnaby_char
     ("https://img.example/out.jpg") none rfl (fun p rimg => rfl),
   by decide, rfl⟩
